import Mathlib

/-!
Verification development for the rustserve-platform repository: a shallow
embedding of the client connection pipeline, the mTLS trust-bundle loader,
the server accept loop, the route filters, and the small data types, with
theorems settling the specification's claims about them.
-/

namespace RustservePlatform

/-- Outcome of a Rust computation: success, a recoverable error (the
Result error channel), or a panic (unwrap on None / unwrap on Err). -/
inductive Outcome (ε α : Type) where
| ok (a : α)
| err (e : ε)
| panicked
deriving DecidableEq, Repr

/-- HashMap insert: replaces the binding when the key is present. -/
def hashMapInsert {α : Type} : List (String × α) → String → α → List (String × α)
| [], k, v => [(k, v)]
| (k0, v0) :: rest, k, v =>
  if k0 = k then (k0, v) :: rest else (k0, v0) :: hashMapInsert rest k v

/-- HashMap get: the value bound to the key, if any. -/
def hashMapGet {α : Type} : List (String × α) → String → Option α
| [], _ => none
| (k0, v0) :: rest, k => if k0 = k then some v0 else hashMapGet rest k

/-- HashMap contains_key. -/
def containsKey {α : Type} (m : List (String × α)) (k : String) : Bool :=
  (hashMapGet m k).isSome

-- ------------------- client.rs: ServiceProfile and Registry

/-- Service details (client.rs): the address for the service. -/
structure ServiceProfile where
  addr : String
deriving DecidableEq, Repr

/-- The service for looking up other services by name (client.rs). -/
structure Registry where
  map : List (String × ServiceProfile)
deriving DecidableEq, Repr

/-- Registry::new — builds the map with HashMap::from_iter over the given
pairs; a later pair with the same key replaces the earlier one. -/
def Registry.new (values : List (String × ServiceProfile)) : Registry :=
  ⟨values.foldl (fun m kv => hashMapInsert m kv.1 kv.2) []⟩

/-- Registry::lookup — `Ok(self.map.get(name).cloned().unwrap())`:
the unwrap on a missing key is a panic, not an error return. -/
def Registry.lookup (r : Registry) (name : String) : Outcome Unit ServiceProfile :=
  match hashMapGet r.map name with
  | some p => .ok p
  | none => .panicked

-- ------------------- mtls.rs: Mtls::new (the trust-bundle loader)

/-- A trust anchor as built by
OwnedTrustAnchor::from_subject_spki_name_constraints. -/
structure TrustAnchor where
  subject : List Nat
  spki : List Nat
  nameConstraints : Option (List Nat)
deriving DecidableEq, Repr

/-- The observable content of a certificate-bundle file for
rustls_pemfile::certs: the DER payloads of its CERTIFICATE sections in
order, and whether the PEM data is malformed (making certs return Err). -/
structure PemFile where
  certBlocks : List (List Nat)
  pemMalformed : Bool
deriving DecidableEq, Repr

/-- Typed errors Mtls::new can return through the Result channel. -/
inductive MtlsError where
| loadError
deriving DecidableEq, Repr

/-- The Mtls value (mtls.rs): address, root certificate store, host. -/
structure Mtls where
  addr : String
  rootCertStore : List TrustAnchor
  host : String
deriving DecidableEq, Repr

/-- `chain.iter().map(|cert| try_from_cert_der(cert).unwrap() ...)`:
every block must convert, a single failure is a panic (none). -/
def mapUnwrap (f : List Nat → Option TrustAnchor) : List (List Nat) → Option (List TrustAnchor)
| [] => some []
| c :: rest =>
  match f c, mapUnwrap f rest with
  | some a, some tailAnchors => some (a :: tailAnchors)
  | _, _ => none

/-- Mtls::new (mtls.rs lines 30-55). `fs` models File::open (none when the
file cannot be opened); `tryFromCertDer` models
webpki::TrustAnchor::try_from_cert_der. `File::open(&full_path)?`
propagates an open failure as an error; `certs(chain_file).unwrap()`
panics on malformed PEM; each `try_from_cert_der(..).unwrap()` panics on
an invalid certificate; otherwise construction succeeds with one trust
anchor per certificate block — including zero blocks. -/
def Mtls.new (fs : String → Option PemFile)
    (tryFromCertDer : List Nat → Option TrustAnchor)
    (addr fullPath host : String) : Outcome MtlsError Mtls :=
  match fs fullPath with
  | none => .err .loadError
  | some file =>
    if file.pemMalformed then .panicked
    else
      match mapUnwrap tryFromCertDer file.certBlocks with
      | none => .panicked
      | some anchors => .ok ⟨addr, anchors, host⟩

-- ------------------- HTTP data

/-- An http::Request with body of type β: method, uri, headers, body. -/
structure HttpRequest (β : Type) where
  method : String
  uri : String
  headers : List (String × String)
  body : β
deriving DecidableEq, Repr

/-- An http::Response with body of type β: status and body. -/
structure HttpResponse (β : Type) where
  status : Nat
  body : β
deriving DecidableEq, Repr

/-- Request::map — replace the body, keep everything else. -/
def HttpRequest.map {β γ : Type} (r : HttpRequest β) (f : β → γ) : HttpRequest γ :=
  ⟨r.method, r.uri, r.headers, f r.body⟩

-- ------------------- client.rs: the send pipeline

/-- The body put on the wire by tls_connect_and_send:
Empty::<Bytes>::new() or Full::new(Bytes::from(bytes)). -/
inductive WireBody where
| empty
| full (bytes : List Nat)
deriving DecidableEq, Repr

/-- The steps of one dispatched client call, in the order they run. -/
inductive ClientStep where
| resolveCertPath
| buildRequest
| resolveAddr
| mtlsNew
| sendWire
deriving DecidableEq, Repr

/-- Typed errors of the send pipeline (each `?` site in client.rs). -/
inductive SendError where
| certPathFailed
| createRequestFailed
| addrFailed
| mtlsFailed (e : MtlsError)
| wireSendFailed
deriving DecidableEq, Repr

/-- The capabilities a controller provides to the client pipeline:
CertificatePath::cert_path, ServiceRequest::create_request, addr and
method, plus the filesystem and certificate parser consumed by Mtls::new
and the transport send. -/
structure ControllerEnv (Req : Type) where
  cert_path : Except Unit String
  create_request : String → Req → Except Unit (HttpRequest (List Nat))
  addr : Except Unit String
  method : String
  fs : String → Option PemFile
  tryFromCertDer : List Nat → Option TrustAnchor
  mtls_send : Mtls → HttpRequest WireBody → Except Unit (HttpResponse (List Nat))

/-- Result of one client call: the outcome, the trace of steps that ran
(in order), and the wire request handed to Mtls::send, if reached. -/
structure CallResult where
  result : Outcome SendError (HttpResponse (List Nat))
  trace : List ClientStep
  sent : Option (HttpRequest WireBody)

/-- tls_connect_and_send (client.rs lines 102-131): build the request via
create_request, then resolve the address via addr, then look up the host
header (`request.headers().get("host").unwrap()` — a panic when absent),
then construct Mtls, then send with an empty body when the method is GET
and the full serialized body otherwise. -/
def tls_connect_and_send {Req : Type} (env : ControllerEnv Req)
    (path : String) (full_cert_path : String) (req : Req) : CallResult :=
  match env.create_request path req with
  | .error _ => ⟨.err .createRequestFailed, [.buildRequest], none⟩
  | .ok request =>
    match env.addr with
    | .error _ => ⟨.err .addrFailed, [.buildRequest, .resolveAddr], none⟩
    | .ok addr =>
      match hashMapGet request.headers "host" with
      | none => ⟨.panicked, [.buildRequest, .resolveAddr], none⟩
      | some host =>
        match Mtls.new env.fs env.tryFromCertDer addr full_cert_path host with
        | .panicked => ⟨.panicked, [.buildRequest, .resolveAddr, .mtlsNew], none⟩
        | .err e => ⟨.err (.mtlsFailed e), [.buildRequest, .resolveAddr, .mtlsNew], none⟩
        | .ok mtls =>
          let wire : HttpRequest WireBody :=
            if env.method = "GET" then request.map (fun _ => WireBody.empty)
            else request.map (fun bytes => WireBody.full bytes)
          match env.mtls_send mtls wire with
          | .error _ =>
            ⟨.err .wireSendFailed, [.buildRequest, .resolveAddr, .mtlsNew, .sendWire], some wire⟩
          | .ok res =>
            ⟨.ok res, [.buildRequest, .resolveAddr, .mtlsNew, .sendWire], some wire⟩

/-- send_request (client.rs lines 88-100): resolve the certificate path
first, then run tls_connect_and_send. -/
def send_request {Req : Type} (env : ControllerEnv Req)
    (path : String) (req : Req) : CallResult :=
  match env.cert_path with
  | .error _ => ⟨.err .certPathFailed, [.resolveCertPath], none⟩
  | .ok cp =>
    let r := tls_connect_and_send env path cp req
    ⟨r.result, .resolveCertPath :: r.trace, r.sent⟩

/-- Step a occurs before step b in trace t (both present, a earlier). -/
def stepBefore (a b : ClientStep) (t : List ClientStep) : Prop :=
  a ∈ t ∧ b ∈ t ∧ t.indexOf a < t.indexOf b

instance (a b : ClientStep) (t : List ClientStep) : Decidable (stepBefore a b t) := by
  unfold stepBefore; infer_instance

/-- Modelled from the spec: the read-only (safe) HTTP methods named by the
specification's phrase "read-only methods"; the code of this repository
does not define the set itself. -/
def readOnlyMethod (m : String) : Bool :=
  m = "GET" || m = "HEAD" || m = "OPTIONS" || m = "TRACE"

-- ------------------- client.rs: make_and_send_request

/-- Typed errors of make_and_send_request. -/
inductive ClientError (V : Type) where
| transportFailed (e : SendError)
| parseResponseFailed
| remoteError (payload : V)
| responseDecodeFailed
deriving DecidableEq, Repr

/-- make_and_send_request (client.rs lines 53-72): send, then branch on
the status. Exactly 200 decodes the body via parse_response; any other
status parses the body as a structured error payload
(`serde_json::from_slice`, modelled by `fromSlice`) and wraps it in an
error; a non-parseable non-200 body is itself a decode error. -/
def make_and_send_request {Req Res V : Type} (env : ControllerEnv Req)
    (parse_response : HttpResponse (List Nat) → Except Unit (HttpResponse Res))
    (fromSlice : List Nat → Option V)
    (path : String) (req : Req) : Outcome (ClientError V) (HttpResponse Res) :=
  match (send_request env path req).result with
  | .panicked => .panicked
  | .err e => .err (.transportFailed e)
  | .ok github_res =>
    if github_res.status = 200 then
      match parse_response github_res with
      | .ok r => .ok r
      | .error _ => .err .parseResponseFailed
    else
      match fromSlice github_res.body with
      | some v => .err (.remoteError v)
      | none => .err .responseDecodeFailed

-- ------------------- lib.rs: PostFilter and PutFilter

/-- The IdParam + NotFound bounds of the filters: the identifier key name
and the not-found payload constructor (`T::not_found()` is fallible). -/
structure EntityTraits (π : Type) where
  id : String
  not_found : Except Unit π

/-- RequestFilterOutcome: pass the request and params through, or fail
with an error payload. -/
inductive RequestFilterOutcome (α π : Type) where
| Pass (req : HttpRequest α) (params : List (String × String))
| Fail (payload : π)
deriving DecidableEq

/-- PostFilter::filter_request (lib.rs lines 43-54): fail with
T::not_found() when the method is POST and the params contain T::id(),
pass through unchanged otherwise. -/
def PostFilter.filter_request {α π : Type} (T : EntityTraits π)
    (req : HttpRequest α) (params : List (String × String)) :
    Except Unit (RequestFilterOutcome α π) :=
  if req.method = "POST" ∧ containsKey params T.id then
    match T.not_found with
    | .ok payload => .ok (.Fail payload)
    | .error e => .error e
  else .ok (.Pass req params)

/-- PutFilter::filter_request (lib.rs lines 80-91): fail with
T::not_found() when the method is PUT and the params do NOT contain
T::id(), pass through unchanged otherwise. -/
def PutFilter.filter_request {α π : Type} (T : EntityTraits π)
    (req : HttpRequest α) (params : List (String × String)) :
    Except Unit (RequestFilterOutcome α π) :=
  if req.method = "PUT" ∧ ¬ containsKey params T.id then
    match T.not_found with
    | .ok payload => .ok (.Fail payload)
    | .error e => .error e
  else .ok (.Pass req params)

-- ------------------- runtime.rs: the server accept loop

/-- The externally determined outcomes of one accepted connection:
whether acceptor.accept (the TLS handshake) succeeds, and whether
http1 serve_connection succeeds. -/
structure ConnBehavior where
  tlsAccept : Except Unit Unit
  serveConn : Except Unit Unit
deriving Repr

/-- What a spawned connection task produces: the task's own return value
(dropped by the runtime) and the lines it printed. -/
structure TaskOutcome where
  taskReturn : Except Unit Unit
  logged : List String

/-- The async block spawned by serve_tls_connection (runtime.rs lines
77-95): `acceptor.accept(tcp_stream).await?` exits the task on a
handshake error without printing; a serve_connection error is caught by
the `if let Err` and printed; the task then returns Ok. -/
def tls_connection_task (c : ConnBehavior) : TaskOutcome :=
  match c.tlsAccept with
  | .error e => ⟨.error e, []⟩
  | .ok _ =>
    match c.serveConn with
    | .error _ => ⟨.ok (), ["Error serving connection"]⟩
    | .ok _ => ⟨.ok (), []⟩

/-- serve_tls_connection (runtime.rs lines 70-98): tokio::spawn the
connection task and return Ok(()) to the caller immediately; the task's
outcome is never observed by the caller. -/
def serve_tls_connection (c : ConnBehavior) : Except Unit Unit × TaskOutcome :=
  (.ok (), tls_connection_task c)

/-- The async block spawned by serve_connection (runtime.rs lines
100-120): a serve error is caught by the `if let Err` and printed. -/
def plain_connection_task (serveOutcome : Except Unit Unit) : TaskOutcome :=
  match serveOutcome with
  | .error _ => ⟨.ok (), ["Error serving connection"]⟩
  | .ok _ => ⟨.ok (), []⟩

/-- The TLS accept loop of drive (runtime.rs lines 58-61) over a finite
prefix of accept results: `listener.accept().await?` propagates an accept
failure out of drive; an accepted connection goes through
`serve_tls_connection(..).await?` (which spawns and returns Ok) and the
loop immediately continues with the next accept. -/
def drive_tls_loop : List (Except Unit ConnBehavior) → Except Unit Unit × List TaskOutcome
| [] => (.ok (), [])
| .error e :: _ => (.error e, [])
| .ok c :: rest =>
  match serve_tls_connection c with
  | (.error e, t) => (.error e, [t])
  | (.ok _, t) =>
    let r := drive_tls_loop rest
    (r.1, t :: r.2)

-- ------------------- lib.rs: SeqApiResponse

/-- SeqApiResponse (lib.rs lines 146-152). -/
structure SeqApiResponse (T : Type) where
  total : Nat
  count : Nat
  offset : Nat
  entity_name : String
  entities : List T
deriving DecidableEq, Repr

/-- SeqApiResponse::new (lib.rs lines 182-196): count is the length of
the entities list; the other fields are the arguments. -/
def SeqApiResponse.new {T : Type} (entity_name : String) (offset total : Nat)
    (entities : List T) : SeqApiResponse T :=
  ⟨total, entities.length, offset, entity_name, entities⟩

-- ------------------- concrete fixtures used by witnesses and counterexamples

/-- A filesystem with one empty (zero-certificate, well-formed) bundle. -/
def emptyBundleFs : String → Option PemFile :=
  fun p => if p = "bundle.pem" then some ⟨[], false⟩ else none

/-- A filesystem with one bundle holding a single certificate block. -/
def oneCertFs : String → Option PemFile :=
  fun p => if p = "bundle.pem" then some ⟨[[1, 2, 3]], false⟩ else none

/-- A certificate parser that accepts every DER blob. -/
def toyAnchorParse : List Nat → Option TrustAnchor :=
  fun der => some ⟨der, der, none⟩

/-- A controller environment in which every step of a call succeeds;
the controller's method is GET. -/
def demoEnv : ControllerEnv (List Nat) where
  cert_path := .ok "bundle.pem"
  create_request := fun path body => .ok ⟨"GET", path, [("host", "users.internal")], body⟩
  addr := .ok "127.0.0.1:9001"
  method := "GET"
  fs := oneCertFs
  tryFromCertDer := toyAnchorParse
  mtls_send := fun _ _ => .ok ⟨200, [7]⟩

/-- Like demoEnv, but the controller's method is HEAD. -/
def headEnv : ControllerEnv (List Nat) where
  cert_path := .ok "bundle.pem"
  create_request := fun path body => .ok ⟨"HEAD", path, [("host", "users.internal")], body⟩
  addr := .ok "127.0.0.1:9001"
  method := "HEAD"
  fs := oneCertFs
  tryFromCertDer := toyAnchorParse
  mtls_send := fun _ _ => .ok ⟨200, [7]⟩

/-- Like demoEnv, but create_request yields a request with no host header. -/
def noHostEnv : ControllerEnv (List Nat) where
  cert_path := .ok "bundle.pem"
  create_request := fun path body => .ok ⟨"GET", path, [], body⟩
  addr := .ok "127.0.0.1:9001"
  method := "GET"
  fs := oneCertFs
  tryFromCertDer := toyAnchorParse
  mtls_send := fun _ _ => .ok ⟨200, [7]⟩

/-- A connection whose TLS handshake fails. -/
def handshakeFailConn : ConnBehavior := ⟨.error (), .ok ()⟩

/-- A connection whose handshake succeeds and whose HTTP serving fails. -/
def serveFailConn : ConnBehavior := ⟨.ok (), .error ()⟩

-- ------------------- helper lemmas

/-- mapUnwrap preserves length when it succeeds. -/
theorem mapUnwrap_length (f : List Nat → Option TrustAnchor) :
    ∀ l l2, mapUnwrap f l = some l2 → l2.length = l.length := by
  intro l
  induction l with
  | nil => intro l2 h; simp [mapUnwrap] at h; simp [← h]
  | cons c rest ih =>
    intro l2 h
    simp only [mapUnwrap] at h
    cases hf : f c with
    | none => rw [hf] at h; simp at h
    | some a =>
      rw [hf] at h
      cases hm : mapUnwrap f rest with
      | none => rw [hm] at h; simp at h
      | some t =>
        rw [hm] at h
        simp at h
        subst h
        simp [ih t hm]

-- ------------------- claim theorems

/-- C1: the claim requires that looking up a name with no registry entry
returns a typed "unknown service" failure rather than crashing; the code
(Registry::lookup, client.rs line 46) unwraps the HashMap::get result, so
an unknown name panics. Evaluated here at the failing input: a registry
holding only "users", looked up with "payments". -/
theorem C1_lookup_unknown_panics :
    Registry.lookup (Registry.new [("users", ⟨"127.0.0.1:9001"⟩)]) "payments"
      = .panicked := by
  rfl

/-- C2 counterexample: a file that opens and contains zero certificates
does NOT make Mtls::new fail with a parse error — construction succeeds
with an empty trust-anchor set. -/
theorem C2_counterexample :
    Mtls.new emptyBundleFs toyAnchorParse "127.0.0.1:9001" "bundle.pem" "users.internal"
      = .ok ⟨"127.0.0.1:9001", [], "users.internal"⟩ := by
  rfl

/-- C2 (amended): if the file cannot be opened, Mtls::new fails with the
load (IO) error; if the file opens, its PEM data is well-formed, and every
certificate block converts to a trust anchor, construction succeeds with
exactly one anchor per certificate block — including the zero-certificate
case, which succeeds with an empty trust store rather than failing. -/
theorem C2_trust_bundle_load (fs : String → Option PemFile)
    (tf : List Nat → Option TrustAnchor) (addr fullPath host : String) :
    (fs fullPath = none → Mtls.new fs tf addr fullPath host = .err .loadError)
  ∧ (∀ file anchors, fs fullPath = some file → file.pemMalformed = false →
      mapUnwrap tf file.certBlocks = some anchors →
      Mtls.new fs tf addr fullPath host = .ok ⟨addr, anchors, host⟩
      ∧ anchors.length = file.certBlocks.length) := by
  constructor
  · intro h
    simp [Mtls.new, h]
  · intro file anchors hfile hpem hmap
    constructor
    · simp [Mtls.new, hfile, hpem, hmap]
    · exact mapUnwrap_length tf file.certBlocks anchors hmap

/-- C2 witness: the amended theorem applied to a one-certificate bundle. -/
theorem C2_witness :
    Mtls.new oneCertFs toyAnchorParse "127.0.0.1:9001" "bundle.pem" "users.internal"
      = .ok ⟨"127.0.0.1:9001", [⟨[1, 2, 3], [1, 2, 3], none⟩], "users.internal"⟩
    ∧ [(⟨[1, 2, 3], [1, 2, 3], none⟩ : TrustAnchor)].length
      = ([[1, 2, 3]] : List (List Nat)).length :=
  (C2_trust_bundle_load oneCertFs toyAnchorParse "127.0.0.1:9001" "bundle.pem"
      "users.internal").2 ⟨[[1, 2, 3]], false⟩ [⟨[1, 2, 3], [1, 2, 3], none⟩]
    (by rfl) (by rfl) (by rfl)

/-- C8: the accept loop hands every accepted connection to its own
spawned task and immediately continues with the next accept: the loop's
own result is Ok and is independent of every task's outcome, and the
spawned tasks are exactly one per accepted connection. -/
theorem C8_accept_loop_spawns_all (conns : List ConnBehavior) :
    drive_tls_loop (conns.map Except.ok) = (.ok (), conns.map tls_connection_task) := by
  induction conns with
  | nil => rfl
  | cons c rest ih =>
    simp [drive_tls_loop, serve_tls_connection, ih]

/-- C10: SeqApiResponse::new sets count to the length of the entities
list and copies total, offset, entity_name, entities from its args. -/
theorem C10_seq_api_response_new {T : Type} (entity_name : String)
    (offset total : Nat) (entities : List T) :
    (SeqApiResponse.new entity_name offset total entities).count = entities.length
  ∧ (SeqApiResponse.new entity_name offset total entities).total = total
  ∧ (SeqApiResponse.new entity_name offset total entities).offset = offset
  ∧ (SeqApiResponse.new entity_name offset total entities).entity_name = entity_name
  ∧ (SeqApiResponse.new entity_name offset total entities).entities = entities :=
  ⟨rfl, rfl, rfl, rfl, rfl⟩

/-- C4: PutFilter fails with the not-found payload exactly when the
method is PUT and the params lack the identifier key, PostFilter fails
with it exactly when the method is POST and the params contain the key,
and any other method passes through both filters unchanged. -/
theorem C4_put_post_filters {α π : Type} (T : EntityTraits π) (req : HttpRequest α)
    (params : List (String × String)) (payload : π)
    (hnf : T.not_found = .ok payload) :
    ((req.method = "PUT" ∧ ¬ containsKey params T.id) →
        PutFilter.filter_request T req params = .ok (.Fail payload))
  ∧ (¬ (req.method = "PUT" ∧ ¬ containsKey params T.id) →
        PutFilter.filter_request T req params = .ok (.Pass req params))
  ∧ ((req.method = "POST" ∧ containsKey params T.id) →
        PostFilter.filter_request T req params = .ok (.Fail payload))
  ∧ (¬ (req.method = "POST" ∧ containsKey params T.id) →
        PostFilter.filter_request T req params = .ok (.Pass req params))
  ∧ (req.method ≠ "PUT" → req.method ≠ "POST" →
        PutFilter.filter_request T req params = .ok (.Pass req params)
        ∧ PostFilter.filter_request T req params = .ok (.Pass req params)) := by
  refine ⟨?_, ?_, ?_, ?_, ?_⟩
  · intro h
    unfold PutFilter.filter_request
    rw [if_pos h, hnf]
  · intro h
    unfold PutFilter.filter_request
    rw [if_neg h]
  · intro h
    unfold PostFilter.filter_request
    rw [if_pos h, hnf]
  · intro h
    unfold PostFilter.filter_request
    rw [if_neg h]
  · intro h1 h2
    constructor
    · unfold PutFilter.filter_request
      rw [if_neg (fun hc => h1 hc.1)]
    · unfold PostFilter.filter_request
      rw [if_neg (fun hc => h2 hc.1)]

/-- C4 witness: a concrete entity type with identifier key "id"; a PUT
request with no id param fails with the not-found payload; a POST request
with no id param passes through. -/
theorem C4_witness :
    PutFilter.filter_request (⟨"id", Except.ok 0⟩ : EntityTraits Nat)
        (⟨"PUT", "/users", [], ([] : List Nat)⟩ : HttpRequest (List Nat)) []
      = .ok (.Fail 0)
    ∧ PostFilter.filter_request (⟨"id", Except.ok 0⟩ : EntityTraits Nat)
        (⟨"POST", "/users", [], ([] : List Nat)⟩ : HttpRequest (List Nat)) []
      = .ok (.Pass ⟨"POST", "/users", [], []⟩ []) :=
  ⟨(C4_put_post_filters ⟨"id", Except.ok 0⟩ ⟨"PUT", "/users", [], []⟩ [] 0 rfl).1
      (by constructor <;> simp [containsKey, hashMapGet]),
   (C4_put_post_filters ⟨"id", Except.ok 0⟩ ⟨"POST", "/users", [], []⟩ [] 0 rfl).2.2.2.1
      (by simp [containsKey, hashMapGet])⟩

/-- C3: when the send succeeds, make_and_send_request returns the decoded
typed response exactly when the status is 200 and the decoder succeeds;
any non-200 status with a body parseable as a structured error payload
yields the error wrapping that payload; a non-200 body that is not
parseable yields the decode error instead. -/
theorem C3_status_branching {Req Res V : Type} (env : ControllerEnv Req)
    (parse_response : HttpResponse (List Nat) → Except Unit (HttpResponse Res))
    (fromSlice : List Nat → Option V) (path : String) (req : Req)
    (gres : HttpResponse (List Nat))
    (hsend : (send_request env path req).result = .ok gres) :
    (gres.status = 200 → ∀ r, parse_response gres = .ok r →
        make_and_send_request env parse_response fromSlice path req = .ok r)
  ∧ (∀ r, make_and_send_request env parse_response fromSlice path req = .ok r →
        gres.status = 200 ∧ parse_response gres = .ok r)
  ∧ (gres.status ≠ 200 → ∀ v, fromSlice gres.body = some v →
        make_and_send_request env parse_response fromSlice path req
          = .err (.remoteError v))
  ∧ (gres.status ≠ 200 → fromSlice gres.body = none →
        make_and_send_request env parse_response fromSlice path req
          = .err .responseDecodeFailed) := by
  refine ⟨?_, ?_, ?_, ?_⟩
  · intro h200 r hparse
    simp [make_and_send_request, hsend, h200, hparse]
  · intro r hok
    simp only [make_and_send_request, hsend] at hok
    by_cases h200 : gres.status = 200
    · rw [if_pos h200] at hok
      cases hparse : parse_response gres with
      | error e => rw [hparse] at hok; simp at hok
      | ok r0 =>
        rw [hparse] at hok
        simp at hok
        subst hok
        exact ⟨h200, rfl⟩
    · rw [if_neg h200] at hok
      cases hj : fromSlice gres.body with
      | none => rw [hj] at hok; simp at hok
      | some v => rw [hj] at hok; simp at hok
  · intro hne v hj
    simp [make_and_send_request, hsend, hne, hj]
  · intro hne hj
    simp [make_and_send_request, hsend, hne, hj]

/-- C3 witness: in the all-success environment the transport returns
status 200 with body [7]; the decoder that returns the body length
produces the typed success; the theorem is applied with the concrete
send result. -/
theorem C3_witness :
    make_and_send_request demoEnv
        (fun r => Except.ok (⟨r.status, r.body.length⟩ : HttpResponse Nat))
        (fun b => some b.length) "/users/42" [5]
      = .ok ⟨200, 1⟩ :=
  (C3_status_branching demoEnv
      (fun r => Except.ok (⟨r.status, r.body.length⟩ : HttpResponse Nat))
      (fun b => some b.length) "/users/42" [5] ⟨200, [7]⟩ (by rfl)).1 rfl ⟨200, 1⟩ rfl

/-- C9: in tls_connect_and_send, once the request is built and the
address resolved, a request lacking a "host" header makes the call panic
(the unwrap on None) rather than return a typed error; when the header is
present the host lookup itself cannot fail — any remaining panic can only
come from Mtls::new. -/
theorem C9_host_header_unwrap {Req : Type} (env : ControllerEnv Req)
    (path cp : String) (req : Req) (request : HttpRequest (List Nat)) (a : String)
    (hreq : env.create_request path req = .ok request)
    (haddr : env.addr = .ok a) :
    (hashMapGet request.headers "host" = none →
        (tls_connect_and_send env path cp req).result = .panicked)
  ∧ (∀ h, hashMapGet request.headers "host" = some h →
        (tls_connect_and_send env path cp req).result = .panicked →
        Mtls.new env.fs env.tryFromCertDer a cp h = .panicked) := by
  constructor
  · intro hnone
    simp [tls_connect_and_send, hreq, haddr, hnone]
  · intro h hsome hpanic
    cases hm : Mtls.new env.fs env.tryFromCertDer a cp h with
    | panicked => rfl
    | err e =>
      exfalso
      simp [tls_connect_and_send, hreq, haddr, hsome, hm] at hpanic
    | ok mtls =>
      exfalso
      cases hs : env.mtls_send mtls
          (if env.method = "GET" then request.map (fun _ => WireBody.empty)
           else request.map (fun bytes => WireBody.full bytes)) with
      | error e => simp [tls_connect_and_send, hreq, haddr, hsome, hm, hs] at hpanic
      | ok res => simp [tls_connect_and_send, hreq, haddr, hsome, hm, hs] at hpanic

/-- C9 witness: the no-host-header environment panics at the host lookup. -/
theorem C9_witness :
    (tls_connect_and_send noHostEnv "/users/42" "bundle.pem" [5]).result
      = .panicked :=
  (C9_host_header_unwrap noHostEnv "/users/42" "bundle.pem" [5]
      ⟨"GET", "/users/42", [], [5]⟩ "127.0.0.1:9001" rfl rfl).1 rfl

/-- C5 counterexample: in a fully successful call, the request is built
(create_request, client.rs line 113) strictly before the target address
is resolved (addr, line 115) — the claimed order "address resolved, then
request built" does not hold on the code. -/
theorem C5_counterexample :
    (send_request demoEnv "/users/42" [5]).result = .ok ⟨200, [7]⟩
    ∧ stepBefore .buildRequest .resolveAddr (send_request demoEnv "/users/42" [5]).trace
    ∧ ¬ stepBefore .resolveAddr .buildRequest (send_request demoEnv "/users/42" [5]).trace := by
  refine ⟨rfl, ?_, ?_⟩ <;> decide

/-- C5 (amended): within one dispatched call the steps run strictly
sequentially in this order: resolve the certificate path, build the
outbound request, resolve the target address, construct the TLS trust
bundle, send the request. -/
theorem C5_pipeline_order {Req : Type} (env : ControllerEnv Req) (path : String)
    (req : Req) (res : HttpResponse (List Nat))
    (hok : (send_request env path req).result = .ok res) :
    (send_request env path req).trace
      = [.resolveCertPath, .buildRequest, .resolveAddr, .mtlsNew, .sendWire]
    ∧ stepBefore .resolveCertPath .buildRequest (send_request env path req).trace
    ∧ stepBefore .buildRequest .resolveAddr (send_request env path req).trace
    ∧ stepBefore .resolveAddr .mtlsNew (send_request env path req).trace
    ∧ stepBefore .mtlsNew .sendWire (send_request env path req).trace := by
  have htr : (send_request env path req).trace
      = [.resolveCertPath, .buildRequest, .resolveAddr, .mtlsNew, .sendWire] := by
    cases hcp : env.cert_path with
    | error e => simp [send_request, hcp] at hok
    | ok cp =>
      cases hcr : env.create_request path req with
      | error e => simp [send_request, tls_connect_and_send, hcp, hcr] at hok
      | ok request =>
        cases haddr : env.addr with
        | error e => simp [send_request, tls_connect_and_send, hcp, hcr, haddr] at hok
        | ok a =>
          cases hh : hashMapGet request.headers "host" with
          | none => simp [send_request, tls_connect_and_send, hcp, hcr, haddr, hh] at hok
          | some h =>
            cases hm : Mtls.new env.fs env.tryFromCertDer a cp h with
            | panicked =>
              simp [send_request, tls_connect_and_send, hcp, hcr, haddr, hh, hm] at hok
            | err e =>
              simp [send_request, tls_connect_and_send, hcp, hcr, haddr, hh, hm] at hok
            | ok mtls =>
              cases hs : env.mtls_send mtls
                  (if env.method = "GET" then request.map (fun _ => WireBody.empty)
                   else request.map (fun bytes => WireBody.full bytes)) with
              | error e =>
                simp [send_request, tls_connect_and_send, hcp, hcr, haddr, hh, hm, hs] at hok
              | ok r =>
                simp [send_request, tls_connect_and_send, hcp, hcr, haddr, hh, hm, hs]
  refine ⟨htr, ?_, ?_, ?_, ?_⟩ <;> rw [htr] <;> decide

/-- C5 witness: the amended order holds on the all-success environment. -/
theorem C5_witness :
    (send_request demoEnv "/users/42" [5]).trace
      = [.resolveCertPath, .buildRequest, .resolveAddr, .mtlsNew, .sendWire] :=
  (C5_pipeline_order demoEnv "/users/42" [5] ⟨200, [7]⟩ rfl).1

/-- C6 counterexample: HEAD is a read-only method, yet for a HEAD
controller the wire request carries the full serialized payload, not an
empty body — the code branches on GET alone, not on read-only methods. -/
theorem C6_counterexample :
    readOnlyMethod "HEAD" = true
    ∧ (send_request headEnv "/users/42" [5]).sent
        = some ⟨"HEAD", "/users/42", [("host", "users.internal")], WireBody.full [5]⟩ :=
  ⟨rfl, rfl⟩

/-- C6 (amended): the wire request carries an empty body exactly when the
controller's method is GET, and the serialized request payload for every
other method — including read-only methods other than GET. -/
theorem C6_wire_body {Req : Type} (env : ControllerEnv Req) (path cp : String)
    (req : Req) (request : HttpRequest (List Nat)) (w : HttpRequest WireBody)
    (hreq : env.create_request path req = .ok request)
    (hsent : (tls_connect_and_send env path cp req).sent = some w) :
    (env.method = "GET" → w.body = WireBody.empty)
  ∧ (env.method ≠ "GET" → w.body = WireBody.full request.body) := by
  cases haddr : env.addr with
  | error e => simp [tls_connect_and_send, hreq, haddr] at hsent
  | ok a =>
    cases hh : hashMapGet request.headers "host" with
    | none => simp [tls_connect_and_send, hreq, haddr, hh] at hsent
    | some h =>
      cases hm : Mtls.new env.fs env.tryFromCertDer a cp h with
      | panicked => simp [tls_connect_and_send, hreq, haddr, hh, hm] at hsent
      | err e => simp [tls_connect_and_send, hreq, haddr, hh, hm] at hsent
      | ok mtls =>
        cases hs : env.mtls_send mtls
            (if env.method = "GET" then request.map (fun _ => WireBody.empty)
             else request.map (fun bytes => WireBody.full bytes)) with
        | error e =>
          simp only [tls_connect_and_send, hreq, haddr, hh, hm, hs,
            Option.some.injEq] at hsent
          subst hsent
          constructor
          · intro hg; simp [hg, HttpRequest.map]
          · intro hg; simp [hg, HttpRequest.map]
        | ok r =>
          simp only [tls_connect_and_send, hreq, haddr, hh, hm, hs,
            Option.some.injEq] at hsent
          subst hsent
          constructor
          · intro hg; simp [hg, HttpRequest.map]
          · intro hg; simp [hg, HttpRequest.map]

/-- C6 witness: the GET controller sends the empty wire body. -/
theorem C6_witness :
    (⟨"GET", "/users/42", [("host", "users.internal")], WireBody.empty⟩
        : HttpRequest WireBody).body = WireBody.empty :=
  (C6_wire_body demoEnv "/users/42" "bundle.pem" [5]
      ⟨"GET", "/users/42", [("host", "users.internal")], [5]⟩
      ⟨"GET", "/users/42", [("host", "users.internal")], WireBody.empty⟩
      rfl rfl).1 rfl

/-- C7 counterexample: a TLS handshake failure ends the connection task
without printing anything — the error is caught but NOT logged, contrary
to the claim that handshake errors are caught and logged. -/
theorem C7_counterexample :
    (serve_tls_connection handshakeFailConn).1 = .ok ()
    ∧ (tls_connection_task handshakeFailConn).logged = []
    ∧ (tls_connection_task handshakeFailConn).taskReturn = .error () :=
  ⟨rfl, rfl, rfl⟩

/-- C7 (amended): every connection error stays inside the connection's
own task: serve_tls_connection always returns Ok to the accept loop, and
the loop continues with the remaining connections unchanged; an HTTP
protocol error is caught and logged inside the task; a TLS handshake
error ends the task silently, without logging. -/
theorem C7_error_isolation (c : ConnBehavior) :
    (serve_tls_connection c).1 = .ok ()
  ∧ (∀ rest, drive_tls_loop (.ok c :: rest)
      = ((drive_tls_loop rest).1, tls_connection_task c :: (drive_tls_loop rest).2))
  ∧ (c.tlsAccept = .error () → (tls_connection_task c).logged = []
      ∧ (tls_connection_task c).taskReturn = .error ())
  ∧ (c.tlsAccept = .ok () → c.serveConn = .error () →
      (tls_connection_task c).logged = ["Error serving connection"]
      ∧ (tls_connection_task c).taskReturn = .ok ())
  ∧ (c.tlsAccept = .ok () → c.serveConn = .ok () →
      (tls_connection_task c).logged = []
      ∧ (tls_connection_task c).taskReturn = .ok ()) := by
  refine ⟨rfl, fun rest => rfl, ?_, ?_, ?_⟩
  · intro h
    constructor <;> simp [tls_connection_task, h]
  · intro h1 h2
    constructor <;> simp [tls_connection_task, h1, h2]
  · intro h1 h2
    constructor <;> simp [tls_connection_task, h1, h2]

/-- C7 witness: a connection whose HTTP serving fails logs the error and
its task returns Ok. -/
theorem C7_witness :
    (tls_connection_task serveFailConn).logged = ["Error serving connection"]
    ∧ (tls_connection_task serveFailConn).taskReturn = .ok () :=
  (C7_error_isolation serveFailConn).2.2.2.1 rfl rfl

end RustservePlatform
